import Mathlib

/-!
Verification of the flowgo-server parcel-delivery backend.

The Express route handlers of the source are shallowly embedded as pure
Lean functions.  MongoDB collections are lists of records; an
`updateOne({filter}, {$set: ...})` call is modelled as updating the first
matching record, and its `modifiedCount` is 1 exactly when the update
actually changed that record, 0 when no record matched or the `$set` was a
no-op (MongoDB's semantics).  Generated `_id`s are modelled as `Nat`
values supplied by the caller (`newId`), and `new Date()` as a caller
supplied `now : Nat`.  A route parameter such as `req.params.id` is a
non-empty string whenever the route matches, so its JavaScript falsiness
check can never fire and the parameter is modelled directly as the parsed
id.  Optional JSON body/query fields are `Option` values, with JavaScript
falsiness (`undefined`, `""`, `0`) made explicit.
-/

/-- JavaScript falsiness of an optional string field: `undefined` (absent)
and the empty string are falsy. -/
def falsyS : Option String → Bool
  | none => true
  | some s => s == ""

/-- JavaScript falsiness of an optional numeric field: `undefined` and `0`
are falsy. -/
def falsyN : Option Nat → Bool
  | none => true
  | some n => n == 0

/-- A stored user document (`usersCollection`): identity key `email`,
optional `role` (the POST /users body may omit it). -/
structure User where
  email : String
  role : Option String := none
deriving DecidableEq

/-- The client-supplied body of a rider application (POST /riders).  The
handler stores it verbatim, so every field is optional. -/
structure RiderFields where
  status : Option String := none
  submittedAt : Option Nat := none
  district : Option String := none
deriving DecidableEq

/-- A stored rider document: generated `_id` plus the stored body. -/
structure Rider where
  rid : Nat
  fields : RiderFields
deriving DecidableEq

/-- The client-supplied body of a parcel creation (POST /parcels), stored
verbatim by the handler.  `ptype` models the JSON field `type` (a Lean
keyword). -/
structure ParcelFields where
  name : Option String := none
  ptype : Option String := none
  senderRegion : Option String := none
  receiverRegion : Option String := none
  payment_status : Option String := none
  delivery_status : Option String := none
  creation_date : Option Nat := none
  user_email : Option String := none
  assignRider_id : Option String := none
  assignRider_name : Option String := none
  riderContact : Option String := none
  assignedAt : Option Nat := none
deriving DecidableEq

/-- A stored parcel document: generated `_id` plus fields. -/
structure Parcel where
  pid : Nat
  fields : ParcelFields
deriving DecidableEq

/-- A stored payment document (`paymentCollection`), as built by
POST /payments: `payment_status` is the literal `"paid"` string written by
the handler. -/
structure Payment where
  email : String
  parcelId : Nat
  amount : Nat
  transactionId : String
  paymentMethod : Option String
  payment_status : String
  date : Nat
deriving DecidableEq

/-- An HTTP handler outcome: an error response (status code plus message)
or a success body.  `ok` corresponds to a response whose JSON carries
`success: true` (or a bare 2xx `res.send`). -/
inductive HResult (α : Type) where
  | err (status : Nat) (message : String)
  | ok (body : α)
deriving DecidableEq

/-- POST /riders: `ridersCollection.insertOne(riderData)` with the raw
request body; the response is the raw insert result (its `insertedId`).
No field of the body is validated, defaulted or overwritten. -/
def postRiders (newId : Nat) (body : RiderFields) (riders : List Rider) :
    Nat × List Rider :=
  (newId, riders ++ [{ rid := newId, fields := body }])

/-- The POST /parcels validation: `!name || !type || !senderRegion ||
!receiverRegion` on the request body. -/
def parcelRequiredMissing (body : ParcelFields) : Bool :=
  falsyS body.name || falsyS body.ptype || falsyS body.senderRegion ||
    falsyS body.receiverRegion

/-- POST /parcels: rejects with 400 when a required descriptive field is
absent or empty, otherwise inserts the body verbatim and returns the
generated id (201 with `insertedId`). -/
def postParcels (newId : Nat) (body : ParcelFields) (parcels : List Parcel) :
    HResult Nat × List Parcel :=
  if parcelRequiredMissing body then
    (.err 400 "Missing required fields", parcels)
  else
    (.ok newId, parcels ++ [{ pid := newId, fields := body }])

/-- C5 counterexample input: a rider application whose body carries
`status: "active"` and no `submittedAt`. -/
def riderCexBody : RiderFields := { status := some "active" }

/-- C6 counterexample input: the spec's own scenario body
`{name:"Box", type:"doc", senderRegion:"N", receiverRegion:"S"}`, with no
`payment_status` and no `creation_date`. -/
def parcelCexBody : ParcelFields :=
  { name := some "Box", ptype := some "doc", senderRegion := some "N",
    receiverRegion := some "S" }

/-- C5: the claim says the stored rider record has `status = "pending"`
and a `submittedAt` timestamp regardless of the request body; but the
handler stores the body verbatim, so a body carrying `status: "active"`
and no `submittedAt` is stored exactly like that. -/
theorem postRiders_cex :
    ((postRiders 7 riderCexBody []).2.map fun r => r.fields.status)
        = [some "active"] ∧
    ((postRiders 7 riderCexBody []).2.map fun r => r.fields.submittedAt)
        = [none] ∧
    (some "active" : Option String) ≠ some "pending" := by
  refine ⟨rfl, rfl, by decide⟩

/-- C5 (amended): POST /riders stores the request body verbatim under the
generated id; the server sets neither `status` nor `submittedAt` (those
fields hold whatever the client sent). -/
theorem postRiders_stores_body (newId : Nat) (body : RiderFields)
    (riders : List Rider) :
    postRiders newId body riders
        = (newId, riders ++ [{ rid := newId, fields := body }]) ∧
    ((postRiders newId body riders).2.map fun r => r.fields.status)
        = (riders.map fun r => r.fields.status) ++ [body.status] ∧
    ((postRiders newId body riders).2.map fun r => r.fields.submittedAt)
        = (riders.map fun r => r.fields.submittedAt) ++ [body.submittedAt] := by
  refine ⟨rfl, ?_, ?_⟩ <;> simp [postRiders]

/-- C6: on the spec's own valid creation body the handler succeeds and
returns the id, but the stored parcel has no `payment_status` field at all
(in particular not `"unpaid"`) and no `creation_date`, because the body is
inserted verbatim. -/
theorem postParcels_cex :
    (postParcels 1 parcelCexBody []).1 = .ok 1 ∧
    ((postParcels 1 parcelCexBody []).2.map fun p => p.fields.payment_status)
        = [none] ∧
    ((postParcels 1 parcelCexBody []).2.map fun p => p.fields.creation_date)
        = [none] ∧
    (none : Option String) ≠ some "unpaid" := by
  refine ⟨rfl, rfl, rfl, by decide⟩

/-- C6 (amended): POST /parcels fails with 400 and stores nothing when
name, type, senderRegion or receiverRegion is absent or empty; otherwise
it stores the request body verbatim (payment_status and creation_date are
whatever the client sent, possibly absent) and returns the generated
id. -/
theorem postParcels_spec (newId : Nat) (body : ParcelFields)
    (parcels : List Parcel) :
    (parcelRequiredMissing body = true →
      postParcels newId body parcels
          = (.err 400 "Missing required fields", parcels)) ∧
    (parcelRequiredMissing body = false →
      postParcels newId body parcels
          = (.ok newId, parcels ++ [{ pid := newId, fields := body }])) := by
  constructor <;> intro h <;> simp [postParcels, h]

/-- Witness for `postParcels_spec` at a concrete valid body and a concrete
invalid body. -/
theorem postParcels_spec_witness :
    postParcels 1 parcelCexBody []
        = (.ok 1, [{ pid := 1, fields := parcelCexBody }]) ∧
    postParcels 2 { name := some "x" } []
        = (.err 400 "Missing required fields", []) := by
  constructor
  · exact (postParcels_spec 1 parcelCexBody []).2 (by decide)
  · exact (postParcels_spec 2 { name := some "x" } []).1 (by decide)

/-- The JSON body of POST /payments. -/
structure PayReq where
  email : Option String
  transactionId : Option String
  amount : Option Nat
  parcelId : Nat
  paymentMethod : Option String
deriving DecidableEq

/-- The success body of POST /payments: `paymentId` is the insert's id and
`parcelModifiedCount` the parcel update's `modifiedCount`. -/
structure PayOk where
  paymentId : Nat
  parcelModifiedCount : Nat
deriving DecidableEq

/-- The payment document POST /payments builds from its body: the handler
writes the literal `payment_status: "paid"` and `date: new Date()`. -/
def mkPayment (req : PayReq) (now : Nat) : Payment :=
  { email := req.email.getD "", parcelId := req.parcelId,
    amount := req.amount.getD 0, transactionId := req.transactionId.getD "",
    paymentMethod := req.paymentMethod, payment_status := "paid", date := now }

/-- The call `parcelCollection.updateOne({_id}, {$set: {payment_status: "paid"}})`:
updates the first parcel with the given id; `modifiedCount` is 1 exactly
when that parcel existed and was not already paid. -/
def setParcelPaid (pid : Nat) : List Parcel → List Parcel × Nat
  | [] => ([], 0)
  | p :: ps =>
    if p.pid = pid then
      if p.fields.payment_status = some "paid" then (p :: ps, 0)
      else ({ p with fields := { p.fields with payment_status := some "paid" } } :: ps, 1)
    else
      let r := setParcelPaid pid ps
      (p :: r.1, r.2)

/-- POST /payments: validates email/transactionId/amount, inserts the
payment document, then updates the parcel, and answers success with the
parcel update's `modifiedCount` — even when that count is zero. -/
def postPayments (req : PayReq) (now newId : Nat)
    (payments : List Payment) (parcels : List Parcel) :
    HResult PayOk × List Payment × List Parcel :=
  if falsyS req.email || falsyS req.transactionId || falsyN req.amount then
    (.err 400 "Missing payment fields", payments, parcels)
  else
    let upd := setParcelPaid req.parcelId parcels
    (.ok { paymentId := newId, parcelModifiedCount := upd.2 },
      payments ++ [mkPayment req now], upd.1)

/-- C1: with email, transactionId and amount present, POST /payments
inserts a Payment with `payment_status = "paid"`, attempts the parcel
update, reports the parcel `modifiedCount` in the response, and when that
count is zero it still answers success with an explicit
`parcelModifiedCount = 0` instead of failing. -/
theorem postPayments_partial_success (req : PayReq) (now newId : Nat)
    (payments : List Payment) (parcels : List Parcel)
    (he : falsyS req.email = false) (ht : falsyS req.transactionId = false)
    (ha : falsyN req.amount = false) :
    (postPayments req now newId payments parcels).2.1
        = payments ++ [mkPayment req now] ∧
    (mkPayment req now).payment_status = "paid" ∧
    (postPayments req now newId payments parcels).2.2
        = (setParcelPaid req.parcelId parcels).1 ∧
    (postPayments req now newId payments parcels).1
        = .ok { paymentId := newId,
                parcelModifiedCount := (setParcelPaid req.parcelId parcels).2 } ∧
    ((setParcelPaid req.parcelId parcels).2 = 0 →
      (postPayments req now newId payments parcels).1
          = .ok { paymentId := newId, parcelModifiedCount := 0 }) := by
  refine ⟨?_, rfl, ?_, ?_, fun h => ?_⟩ <;>
    simp [postPayments, he, ht, ha, *]

/-- Witness for `postPayments_partial_success`: a concrete confirm request
against an empty parcel collection, where the parcel update modifies zero
records yet the response is success with `parcelModifiedCount = 0`. -/
theorem postPayments_partial_success_witness :
    (postPayments ⟨some "u@x.com", some "tx1", some 5, 1, none⟩ 3 0 [] []).1
        = .ok { paymentId := 0, parcelModifiedCount := 0 } := by
  have h := postPayments_partial_success ⟨some "u@x.com", some "tx1", some 5, 1, none⟩
    3 0 [] [] (by decide) (by decide) (by decide)
  exact h.2.2.2.2 (by decide)

/-- The allowed status values of PATCH /riders/:id. -/
def validStatus (s : String) : Bool :=
  s == "pending" || s == "active" || s == "rejected"

/-- The call `usersCollection.updateOne({email}, {$set: {role: "rider"}})`: updates
the first user whose email equals the (possibly absent) body email; an
absent body email matches no stored user, every stored user having an
email field. -/
def promoteFirst (e : Option String) : List User → List User × Nat
  | [] => ([], 0)
  | u :: us =>
    if some u.email = e then
      if u.role = some "rider" then (u :: us, 0)
      else ({ u with role := some "rider" } :: us, 1)
    else
      let r := promoteFirst e us
      (u :: r.1, r.2)

/-- The call `ridersCollection.updateOne({_id}, {$set: {status}})`: the filter is
the id only — the rider's current status is not consulted; `modifiedCount`
is 1 exactly when the rider exists and its status differs. -/
def setRiderStatus (id : Nat) (s : String) : List Rider → List Rider × Nat
  | [] => ([], 0)
  | r :: rs =>
    if r.rid = id then
      if r.fields.status = some s then (r :: rs, 0)
      else ({ r with fields := { r.fields with status := some s } } :: rs, 1)
    else
      let t := setRiderStatus id s rs
      (r :: t.1, t.2)

/-- The request of PATCH /riders/:id: the route id plus the body's
`status` and `email` fields. -/
structure RiderPatchReq where
  rid : Nat
  status : Option String
  email : Option String
deriving DecidableEq

/-- PATCH /riders/:id: validates the status value, promotes the body email
to role `rider` when the new status is `active` (before the rider write),
then sets the rider's status unconditionally on the id filter, answering
404 when nothing was modified. -/
def patchRider (req : RiderPatchReq) (users : List User) (riders : List Rider) :
    HResult String × List User × List Rider :=
  if falsyS req.status then
    (.err 400 "Rider ID and status are required", users, riders)
  else
    let s := req.status.getD ""
    if validStatus s = false then
      (.err 400 "Invalid status value", users, riders)
    else
      let users' := if s == "active" then (promoteFirst req.email users).1 else users
      let upd := setRiderStatus req.rid s riders
      if upd.2 = 0 then
        (.err 404 "Rider not found or status unchanged", users', upd.1)
      else
        (.ok ("Rider status updated to " ++ s), users', upd.1)

/-- The lookup `findOne({email})` on the users collection. -/
def findUser (e : String) : List User → Option User
  | [] => none
  | u :: us => if u.email = e then some u else findUser e us

/-- GET /users/role/:email: 404 when the email is unregistered, otherwise
the stored role field (the route parameter is non-empty whenever the route
matches, so the handler's falsiness check on it cannot fire). -/
def getRole (e : String) (users : List User) : HResult (Option String) :=
  match findUser e users with
  | none => .err 404 "User not found"
  | some u => .ok u.role

/-- C2 counterexample input: a rider whose status is already `active`. -/
def riderActiveOne : Rider :=
  { rid := 1, fields := { status := some "active", submittedAt := some 0 } }

/-- C2: the claim says `active` is terminal, but PATCH /riders/:id filters
on the id only: a rider with status `active` is transitioned to `rejected`
and the handler answers success — refuting the claimed invariant. -/
theorem patchRider_terminal_cex :
    (patchRider { rid := 1, status := some "rejected", email := none }
        [] [riderActiveOne]).1
      = .ok "Rider status updated to rejected" ∧
    (patchRider { rid := 1, status := some "rejected", email := none }
        [] [riderActiveOne]).2.2
      = [{ rid := 1,
           fields := { status := some "rejected", submittedAt := some 0 } }] := by
  constructor <;> rfl

/-- Running `setRiderStatus` on a collection whose first rider with the given id
has a different status: that rider is rewritten and `modifiedCount` is
1. -/
theorem setRiderStatus_append (pre post : List Rider) (r : Rider) (s : String)
    (hpre : ∀ r' ∈ pre, r'.rid ≠ r.rid) (hne : r.fields.status ≠ some s) :
    setRiderStatus r.rid s (pre ++ r :: post)
        = (pre ++ { r with fields := { r.fields with status := some s } } :: post, 1) := by
  induction pre with
  | nil => simp [setRiderStatus, hne]
  | cons a pre ih =>
      have ha : a.rid ≠ r.rid := hpre a (by simp)
      have ih' := ih fun r' hr' => hpre r' (by simp [hr'])
      simp [setRiderStatus, ha, ih']

/-- A valid status value is not the empty string. -/
theorem validStatus_not_falsy (s : String) (hs : validStatus s = true) :
    falsyS (some s) = false := by
  have h3 : (s = "pending" ∨ s = "active") ∨ s = "rejected" := by
    simpa [validStatus] using hs
  rcases h3 with (h | h) | h <;> subst h <;> decide

/-- C2 (amended): PATCH /riders/:id performs any requested valid status
change regardless of the rider's current status — `active` and `rejected`
are not terminal; whenever the requested status differs from the current
one the rider is rewritten to it and the handler answers success. -/
theorem patchRider_overwrites (pre post : List Rider) (r : Rider) (s : String)
    (users : List User) (email : Option String)
    (hs : validStatus s = true)
    (hpre : ∀ r' ∈ pre, r'.rid ≠ r.rid)
    (hne : r.fields.status ≠ some s) :
    (patchRider { rid := r.rid, status := some s, email := email }
        users (pre ++ r :: post)).1
      = .ok ("Rider status updated to " ++ s) ∧
    (patchRider { rid := r.rid, status := some s, email := email }
        users (pre ++ r :: post)).2.2
      = pre ++ { r with fields := { r.fields with status := some s } } :: post := by
  have hfs := validStatus_not_falsy s hs
  constructor <;>
    simp [patchRider, hfs, hs, setRiderStatus_append pre post r s hpre hne]

/-- Witness for `patchRider_overwrites`: a rider whose status is already
`rejected` is transitioned back to `active`. -/
theorem patchRider_overwrites_witness :
    (patchRider { rid := 2, status := some "active", email := none } []
        [{ rid := 2, fields := { status := some "rejected" } }]).1
      = .ok "Rider status updated to active" ∧
    (patchRider { rid := 2, status := some "active", email := none } []
        [{ rid := 2, fields := { status := some "rejected" } }]).2.2
      = [{ rid := 2, fields := { status := some "active" } }] := by
  have h := patchRider_overwrites []
    [] { rid := 2, fields := { status := some "rejected" } } "active" [] none
    (by decide) (by simp) (by decide)
  simpa using h

/-- After `promoteFirst` with an email that occurs in the collection, the
first user with that email has role `rider`. -/
theorem promoteFirst_findUser (e : String) (users : List User)
    (h : ∃ u ∈ users, u.email = e) :
    ∃ u', findUser e (promoteFirst (some e) users).1 = some u'
        ∧ u'.role = some "rider" := by
  induction users with
  | nil => simp at h
  | cons a us ih =>
      by_cases ha : a.email = e
      · by_cases hr : a.role = some "rider"
        · exact ⟨a, by simp [promoteFirst, ha, hr, findUser], hr⟩
        · exact ⟨{ a with role := some "rider" },
            by simp [promoteFirst, ha, hr, findUser], rfl⟩
      · obtain ⟨u, hu, hue⟩ := h
        rcases List.mem_cons.mp hu with rfl | htail
        · exact absurd hue ha
        · obtain ⟨u', h1, h2⟩ := ih ⟨u, htail, hue⟩
          refine ⟨u', ?_, h2⟩
          have hne : ¬ some a.email = some e := by simpa using ha
          simp [promoteFirst, hne, findUser, ha, h1]

/-- With `status = "active"`, the users collection PATCH /riders/:id
leaves behind is the promoted one, whatever the rider write reports. -/
theorem patchRider_active_users (users : List User) (riders : List Rider)
    (id : Nat) (e : Option String) :
    (patchRider { rid := id, status := some "active", email := e }
        users riders).2.1
      = (promoteFirst e users).1 := by
  have hne : "active" ≠ "" := by decide
  simp only [patchRider, Option.getD_some]
  norm_num [falsyS, validStatus, hne]
  split <;> rfl

/-- C3: after `PATCH /riders/:id` with status `active` and a body email of
a registered user, GET /users/role for that email answers role `rider` —
the promotion happens before the rider status write and survives even when
that write matches nothing and the handler reports 404. -/
theorem patchRider_active_promotes (users : List User) (riders : List Rider)
    (id : Nat) (e : String) (h : ∃ u ∈ users, u.email = e) :
    getRole e (patchRider { rid := id, status := some "active", email := some e }
        users riders).2.1
      = .ok (some "rider") := by
  rw [patchRider_active_users]
  obtain ⟨u', h1, h2⟩ := promoteFirst_findUser e users h
  simp [getRole, h1, h2]

/-- Witness for `patchRider_active_promotes`: the rider collection is
empty, so the status write matches nothing and the handler answers 404 —
yet the user's role was still promoted to `rider`. -/
theorem patchRider_active_promotes_witness :
    getRole "u@x.com"
      (patchRider { rid := 5, status := some "active", email := some "u@x.com" }
        [{ email := "u@x.com", role := some "user" }] []).2.1
      = .ok (some "rider") ∧
    (patchRider { rid := 5, status := some "active", email := some "u@x.com" }
        [{ email := "u@x.com", role := some "user" }] []).1
      = .err 404 "Rider not found or status unchanged" := by
  refine ⟨patchRider_active_promotes _ _ 5 "u@x.com"
    ⟨{ email := "u@x.com", role := some "user" }, by simp, rfl⟩, by rfl⟩

/-- The JSON body of PATCH /parcels/assign/:id. -/
structure AssignReq where
  riderId : Option String
  riderName : Option String
  riderContact : Option String
deriving DecidableEq

/-- The `$set` document of PATCH /parcels/assign/:id applied to a parcel's
fields: `delivery_status = "in_transit"`, a fresh `assignedAt`, and the
rider identity fields from the body. -/
def assignSet (req : AssignReq) (now : Nat) (f : ParcelFields) : ParcelFields :=
  { f with delivery_status := some "in_transit", assignedAt := some now,
           assignRider_id := req.riderId, assignRider_name := req.riderName,
           riderContact := req.riderContact }

/-- The call `parcelCollection.updateOne({_id}, {$set: updateData})` for the
assignment: `modifiedCount` is 1 exactly when the parcel exists and the
`$set` changes it — and since `assignedAt` is the request time, any parcel
assigned at a different time is changed. -/
def setAssign (pid : Nat) (req : AssignReq) (now : Nat) :
    List Parcel → List Parcel × Nat
  | [] => ([], 0)
  | p :: ps =>
    if p.pid = pid then
      if assignSet req now p.fields = p.fields then (p :: ps, 0)
      else ({ p with fields := assignSet req now p.fields } :: ps, 1)
    else
      let t := setAssign pid req now ps
      (p :: t.1, t.2)

/-- PATCH /parcels/assign/:id: requires a rider id (the parcel id is a
non-empty route parameter), applies the `$set`, and answers 404 with
"Parcel not found or already assigned" when nothing was modified. -/
def assignParcel (pid : Nat) (req : AssignReq) (now : Nat)
    (parcels : List Parcel) : HResult Unit × List Parcel :=
  if falsyS req.riderId then
    (.err 400 "Parcel ID and Rider ID are required", parcels)
  else
    let upd := setAssign pid req now parcels
    if upd.2 = 0 then
      (.err 404 "Parcel not found or already assigned", upd.1)
    else
      (.ok (), upd.1)

/-- C7 failing input: a parcel already assigned to rider r1 at time 0. -/
def parcelAssignedOne : Parcel :=
  { pid := 1,
    fields := { name := some "Box", delivery_status := some "in_transit",
                assignedAt := some 0, assignRider_id := some "r1",
                assignRider_name := some "Rider One",
                riderContact := some "c1" } }

/-- C7: a second assignment attempt on the already-assigned parcel 1 (to
rider r2, at time 5) is not a no-op: the handler reports success and
overwrites the rider fields and `assignedAt` — contradicting the claimed
idempotent-safety and the handler's own "already assigned" 404 message,
which is unreachable for an existing parcel because `assignedAt` is always
fresh. -/
theorem assignParcel_overwrites :
    (assignParcel 1
        { riderId := some "r2", riderName := some "Rider Two",
          riderContact := some "c2" } 5 [parcelAssignedOne]).1
      = .ok () ∧
    ((assignParcel 1
        { riderId := some "r2", riderName := some "Rider Two",
          riderContact := some "c2" } 5 [parcelAssignedOne]).2.map
        fun p => p.fields.assignRider_id)
      = [some "r2"] ∧
    ((assignParcel 1
        { riderId := some "r2", riderName := some "Rider Two",
          riderContact := some "c2" } 5 [parcelAssignedOne]).2.map
        fun p => p.fields.assignedAt)
      = [some 5] := by
  refine ⟨rfl, rfl, rfl⟩

/-- JavaScript `header.split(" ")` on the character list of the header
(single-character separator, adjacent separators give empty parts). -/
def splitSpaces : List Char → List (List Char)
  | [] => [[]]
  | c :: cs =>
    if c = ' ' then [] :: splitSpaces cs
    else
      match splitSpaces cs with
      | [] => [[c]]
      | t :: ts => (c :: t) :: ts

/-- Middleware `verifyFBToken`: with no Authorization header, or no second
space-separated part, or an empty one, the middleware answers 404
"Unauthorized access" without touching any collection; a present token is
resolved through the identity provider (`verify`), a failed verification
answering 403 "Forbidden access". -/
def verifyFBToken (verify : String → Option String)
    (authHeader : Option String) : HResult String :=
  match authHeader with
  | none => .err 404 "Unauthorized access"
  | some h =>
    match (splitSpaces h.data).get? 1 with
    | none => .err 404 "Unauthorized access"
    | some t =>
      if t.isEmpty then .err 404 "Unauthorized access"
      else
        match verify (String.mk t) with
        | none => .err 403 "Forbidden access"
        | some e => .ok e

/-- MongoDB `sort({submittedAt: -1})` on riders (absent timestamps sort as
0; only the orderedness matters to the claims). -/
def ridersBySubmittedDesc (rs : List Rider) : List Rider :=
  rs.mergeSort fun a b =>
    decide (b.fields.submittedAt.getD 0 ≤ a.fields.submittedAt.getD 0)

/-- GET /riders/pending behind `verifyFBToken` and `verifyAdmin`: the
admin check looks the decoded email up in the users collection and answers
403 "Forbidden access" unless the stored role is `admin`; only then are
the pending riders read. -/
def getRidersPending (verify : String → Option String)
    (authHeader : Option String) (users : List User) (riders : List Rider) :
    HResult (List Rider) :=
  match verifyFBToken verify authHeader with
  | .err s m => .err s m
  | .ok email =>
    match findUser email users with
    | none => .err 403 "Forbidden access"
    | some u =>
      if u.role = some "admin" then
        .ok (ridersBySubmittedDesc
          (riders.filter fun r => r.fields.status == some "pending"))
      else .err 403 "Forbidden access"

/-- C4: with no credential presented, GET /riders/pending is rejected
before any database access (the result does not depend on the users or
riders collections) with status 404 and message "Unauthorized access" —
distinct from the 403 "Forbidden access" given to a valid credential of
insufficient role, but not the 401/403-class status the claim states: the
message shows 401 was intended, the code writes 404. -/
theorem ridersPending_no_credential (verify : String → Option String)
    (users : List User) (riders : List Rider) :
    getRidersPending verify none users riders
        = .err 404 "Unauthorized access" ∧
    getRidersPending (fun t => if t == "tok" then some "u@x.com" else none)
        (some "Bearer tok") [{ email := "u@x.com", role := some "user" }] []
      = .err 403 "Forbidden access" ∧
    (404 : Nat) ≠ 403 ∧ (404 : Nat) ≠ 401 := by
  refine ⟨rfl, by decide, by decide, by decide⟩

/-- One pattern character against one subject character, with the `i`
option: `.` is the regex wildcard, any other character matches
case-insensitively. -/
def chMatch (p c : Char) : Bool := p == '.' || p.toLower == c.toLower

/-- The pattern matches at the head of the subject. -/
def matchHere : List Char → List Char → Bool
  | [], _ => true
  | _ :: _, [] => false
  | p :: ps, c :: cs => chMatch p c && matchHere ps cs

/-- Unanchored regex search: the pattern matches at some position of the
subject. -/
def rxSearch (pat : List Char) : List Char → Bool
  | [] => matchHere pat []
  | c :: cs => matchHere pat (c :: cs) || rxSearch pat cs

/-- MongoDB `{email: {$regex: q, $options: "i"}}` for the pattern subset
the claims exercise (literal characters and the `.` wildcard). -/
def emailMatches (q e : String) : Bool := rxSearch q.data e.data

/-- The query occurs verbatim at the head of the subject,
case-insensitively. -/
def occursAt : List Char → List Char → Bool
  | [], _ => true
  | _ :: _, [] => false
  | a :: as, b :: bs => a.toLower == b.toLower && occursAt as bs

/-- The query text literally occurs somewhere inside the subject
(case-insensitive substring occurrence — the claim's reading of the
search). -/
def occursIn (q : List Char) : List Char → Bool
  | [] => occursAt q []
  | c :: cs => occursAt q (c :: cs) || occursIn q cs

/-- GET /users/search: requires a non-empty `query` parameter, then
returns the users whose email matches it as a case-insensitive regex,
capped at 10. -/
def searchUsers (q : Option String) (users : List User) :
    HResult (List User) :=
  if falsyS q then .err 400 "Search query is required"
  else .ok ((users.filter fun u => emailMatches (q.getD "") u.email).take 10)

/-- C8: the query is a regex, not a literal substring: searching `a.c`
returns the user `abc@x.com` although the text "a.c" does not literally
occur in that email (case-insensitively) — refuting the claim that an
email is returned only if the query text occurs inside it. -/
theorem searchUsers_regex_cex :
    searchUsers (some "a.c") [{ email := "abc@x.com" }]
        = .ok [{ email := "abc@x.com" }] ∧
    occursIn "a.c".data "abc@x.com".data = false := by
  refine ⟨by decide, by decide⟩

/-- C8 (amended): SearchUsers requires a non-empty query (400 otherwise),
returns at most 10 results, each returned email matching the query as a
case-insensitive regular expression — which for metacharacter-free
queries is substring match, so inserting `A@x.com` and searching `a@`
returns it. -/
theorem searchUsers_spec (q : Option String) (users : List User) :
    (falsyS q = true → searchUsers q users = .err 400 "Search query is required") ∧
    (falsyS q = false →
      ∃ l, searchUsers q users = .ok l ∧ l.length ≤ 10 ∧
        ∀ u ∈ l, emailMatches (q.getD "") u.email = true) ∧
    searchUsers (some "a@") [{ email := "A@x.com" }]
        = .ok [{ email := "A@x.com" }] := by
  refine ⟨fun h => by simp [searchUsers, h], fun h => ?_, by decide⟩
  refine ⟨(users.filter fun u => emailMatches (q.getD "") u.email).take 10,
    by simp [searchUsers, h], ?_, ?_⟩
  · rw [List.length_take]
    exact inf_le_left
  · intro u hu
    exact (List.mem_filter.mp (List.take_subset _ _ hu)).2

/-- Witness for `searchUsers_spec`: the missing-query rejection at a
concrete empty input, and the bounded regex-matching result on the
spec's own `A@x.com` example. -/
theorem searchUsers_spec_witness :
    searchUsers none [] = .err 400 "Search query is required" ∧
    ∃ l, searchUsers (some "a@") [{ email := "A@x.com" }] = .ok l ∧
      l.length ≤ 10 ∧ ∀ u ∈ l, emailMatches "a@" u.email = true := by
  refine ⟨(searchUsers_spec none []).1 rfl, ?_⟩
  exact (searchUsers_spec (some "a@") [{ email := "A@x.com" }]).2.1 (by decide)

/-- The read `paymentCollection.find({email}).sort({date: -1})`: the caller's
payment documents, newest first. -/
def paymentsByDateDesc (e : String) (payments : List Payment) :
    List Payment :=
  (payments.filter fun p => p.email == e).mergeSort fun a b =>
    decide (b.date ≤ a.date)

/-- GET /payments: the strict ownership check (decoded email against the
raw query value) runs first, then the falsiness check on the query email,
then the read.  No role is consulted: admins get no exemption. -/
def getPayments (decodedEmail : String) (queryEmail : Option String)
    (payments : List Payment) : HResult (List Payment) :=
  if queryEmail ≠ some decodedEmail then .err 403 "Forbidden access"
  else if falsyS queryEmail then .err 400 "Email is required in query!"
  else .ok (paymentsByDateDesc (queryEmail.getD "") payments)

/-- C9: GET /payments succeeds only for the caller's own email — any
caller whose decoded email differs from the queried one (admins included,
no role is consulted) gets 403 — and on success it returns exactly the
Payment records for that email, ordered by date descending. -/
theorem getPayments_ownership :
    (∀ (de : String) (qe : Option String) (db : List Payment),
        qe ≠ some de → getPayments de qe db = .err 403 "Forbidden access") ∧
    (∀ (de : String) (db : List Payment), de ≠ "" →
      ∃ l, getPayments de (some de) db = .ok l ∧
        l.Perm (db.filter fun p => p.email == de) ∧
        l.Sorted (fun a b => b.date ≤ a.date) ∧
        ∀ p ∈ l, p.email = de) := by
  constructor
  · intro de qe db h
    simp [getPayments, h]
  · intro de db h
    have hf : falsyS (some de) = false := by simp [falsyS, h]
    refine ⟨paymentsByDateDesc de db, by simp [getPayments, hf], ?_, ?_, ?_⟩
    · exact List.mergeSort_perm _ _
    · have hs := @List.sorted_mergeSort Payment
        (fun a b => decide (b.date ≤ a.date))
        (fun a b c hab hbc => by
          simp only [decide_eq_true_eq] at *
          exact le_trans hbc hab)
        (fun a b => by simpa using Nat.le_total b.date a.date)
        (db.filter fun p => p.email == de)
      exact hs.imp fun hab => by simpa using hab
    · intro p hp
      have hmem := (List.mergeSort_perm
        (db.filter fun p => p.email == de) _).subset hp
      simpa using (List.mem_filter.mp hmem).2

/-- Witness for `getPayments_ownership`: a mismatched caller is refused
with 403, and the caller's own (empty) history is returned sorted. -/
theorem getPayments_ownership_witness :
    getPayments "u@x.com" (some "v@x.com") [] = .err 403 "Forbidden access" ∧
    ∃ l, getPayments "u@x.com" (some "u@x.com") [] = .ok l ∧
      l.Perm (([] : List Payment).filter fun p => p.email == "u@x.com") ∧
      l.Sorted (fun a b => b.date ≤ a.date) ∧
      ∀ p ∈ l, p.email = "u@x.com" := by
  exact ⟨getPayments_ownership.1 "u@x.com" (some "v@x.com") [] (by decide),
         getPayments_ownership.2 "u@x.com" [] (by decide)⟩

/-- C10: a request that omits the email query parameter is rejected 403
Forbidden (the decoded email, a string, never equals an absent query
value), never 400 — for any caller with a non-empty decoded email the
"Email is required" branch is unreachable. -/
theorem getPayments_missing_email_forbidden :
    (∀ (de : String) (db : List Payment),
        getPayments de none db = .err 403 "Forbidden access") ∧
    (∀ (de : String) (qe : Option String) (db : List Payment), de ≠ "" →
        getPayments de qe db ≠ .err 400 "Email is required in query!") := by
  constructor
  · intro de db
    simp [getPayments]
  · intro de qe db h
    by_cases hq : qe = some de
    · subst hq
      have hf : falsyS (some de) = false := by simp [falsyS, h]
      simp [getPayments, hf]
    · simp [getPayments, hq]

/-- Witness for `getPayments_missing_email_forbidden` at a concrete
caller: the omitted-email request yields 403, not the 400 branch. -/
theorem getPayments_missing_email_forbidden_witness :
    getPayments "u@x.com" none [] = .err 403 "Forbidden access" ∧
    getPayments "u@x.com" none [] ≠ .err 400 "Email is required in query!" := by
  exact ⟨getPayments_missing_email_forbidden.1 "u@x.com" [],
         getPayments_missing_email_forbidden.2 "u@x.com" none [] (by decide)⟩
